import Mathlib

/-!
Shallow embedding of the seoapp1 repository's analysis-and-edit pipeline:
the SEO edit lifecycle routes (src/routes/seo.js), the local fallback
analyzer and issue engine (src/unnamed/part_003, the analyze router), and
the quick-analyze API endpoint (src/routes/api.js), together with theorems
settling the frozen claims about them.

External effects (database rows, axios calls) are modelled by explicit
parameters: the row an SQL lookup returns becomes an `Option` argument, the
outcome of an external push or fetch becomes a `Bool`/`Except` argument,
and `CURRENT_TIMESTAMP` becomes a `Nat` argument.  JavaScript numbers that
only ever hold seconds with millisecond precision (load times) are embedded
as natural numbers of milliseconds, so `loadTime < 2` becomes
`loadTimeMs < 2000`.
-/

/-- Status column of a row of the seo_edits table (src/routes/seo.js).
New rows are inserted with status `pending`. -/
inductive EditStatus
  | pending
  | applied
  | cancelled
  deriving DecidableEq, Repr

/-- The lifecycle-relevant fields of a seo_edits row: its status and its
applied_at timestamp (`none` until an apply sets it). -/
structure EditRecord where
  status : EditStatus
  appliedAt : Option Nat
  deriving DecidableEq, Repr

/-- A fresh edit as inserted by POST /seo/edit/:websiteId or by the
apply-ai route: status 'pending', applied_at NULL. -/
def createEdit : EditRecord :=
  ⟨EditStatus.pending, none⟩

/-- Outcome of one edit-lifecycle route call: the record afterwards
(`none` when the id/owner lookup found no row), the flash message shown to
the user, whether it was flashed as an error, and how many push calls to
the external platform connector were attempted. -/
structure RouteResult where
  record : Option EditRecord
  message : String
  isError : Bool
  pushAttempts : Nat
  deriving DecidableEq, Repr

/-- POST /seo/apply/:editId (src/routes/seo.js lines 161-242).
`edit` is the row found by the id+user lookup, `provider` is the joined
connected account's provider (`none` when websites.connected_account_id is
NULL), `pushSucceeds` tells whether the axios push to the ML service
succeeds, `pushNote` is push_data.note of a successful response, `now` is
CURRENT_TIMESTAMP.  Note that the UPDATE setting status='applied' has no
status filter in its WHERE clause: it runs whatever the current status is,
in both the success and the failure branch of the push. -/
def applyEditRoute (edit : Option EditRecord) (provider : Option String)
    (pushSucceeds : Bool) (pushNote : String) (now : Nat) : RouteResult :=
  match edit with
  | none => ⟨none, "Edit not found", true, 0⟩
  | some e =>
    match provider with
    | none =>
      ⟨some e, "No platform connected. Connect a platform first to push changes.", true, 0⟩
    | some p =>
      if pushSucceeds then
        ⟨some ⟨EditStatus.applied, some now⟩,
         "SEO change applied to " ++ p ++ "! " ++ pushNote, false, 1⟩
      else
        ⟨some ⟨EditStatus.applied, some now⟩,
         "SEO change marked as applied (Demo mode - actual API integration required for "
           ++ p ++ ")",
         false, 1⟩

/-- POST /seo/cancel/:editId (src/routes/seo.js lines 320-345).
The UPDATE carries `AND status = 'pending'` in its WHERE clause, so a
non-pending row is untouched and zero rows come back, which the route
reports as "Edit not found or already processed". -/
def cancelEditRoute (edit : Option EditRecord) : RouteResult :=
  match edit with
  | none => ⟨none, "Edit not found or already processed", true, 0⟩
  | some e =>
    if e.status = EditStatus.pending then
      ⟨some ⟨EditStatus.cancelled, e.appliedAt⟩, "Edit cancelled", false, 0⟩
    else
      ⟨some e, "Edit not found or already processed", true, 0⟩

/-- One user operation on an existing edit record: an apply call (with the
website's connected provider, the push outcome, the push note and the
timestamp) or a cancel call. -/
inductive EditOp
  | apply (provider : Option String) (pushSucceeds : Bool) (pushNote : String) (now : Nat)
  | cancel
  deriving DecidableEq, Repr

/-- The record after running one lifecycle route against an existing,
owned record (both routes always return the record in that case, so the
`getD` default is never used). -/
def stepRecord (e : EditRecord) : EditOp → EditRecord
  | EditOp.apply provider pushSucceeds pushNote now =>
    ((applyEditRoute (some e) provider pushSucceeds pushNote now).record).getD e
  | EditOp.cancel =>
    ((cancelEditRoute (some e)).record).getD e

/-- Outcome of POST /seo/apply-ai/:websiteId: the edit record the route
leaves behind, the JSON message, the JSON success flag, and the number of
push attempts. -/
structure AiResult where
  record : EditRecord
  message : String
  success : Bool
  pushAttempts : Nat
  deriving DecidableEq, Repr

/-- POST /seo/apply-ai/:websiteId (src/routes/seo.js lines 245-317), for
an existing website: the route first inserts a pending edit; when a
provider is connected it makes one push attempt and only on success
updates the edit to applied; on push failure it falls through to the
generic saved message, leaving the edit pending. -/
def applyAiRoute (provider : Option String) (pushSucceeds : Bool) (now : Nat) : AiResult :=
  match provider with
  | some p =>
    if pushSucceeds then
      ⟨⟨EditStatus.applied, some now⟩, "AI suggestion applied to " ++ p ++ "!", true, 1⟩
    else
      ⟨createEdit, "AI suggestion saved. Connect a platform to push to your site.", true, 1⟩
  | none =>
    ⟨createEdit, "AI suggestion saved. Connect a platform to push to your site.", true, 0⟩

/-- The page facts the fallback analyzer extracts with cheerio before
scoring (src/unnamed/part_003, performBasicAnalysis). -/
structure BasicPage where
  title : String
  metaDescription : String
  h1Tags : List String
  h2Tags : List String
  wordCount : Nat
  mobileFriendly : Bool
  loadTimeMs : Nat
  deriving DecidableEq, Repr

/-- Title category score (part_003 line 195): 100 when the title length is
in [30,60], 60 for any other nonempty title, 0 when absent. -/
def titleScore (title : String) : Nat :=
  if title = "" then 0
  else if 30 ≤ title.length ∧ title.length ≤ 60 then 100
  else 60

/-- Meta category score (part_003 line 196): 100 when the description
length is in [120,160], 60 for any other nonempty description, 0 when
absent. -/
def metaScore (metaDescription : String) : Nat :=
  if metaDescription = "" then 0
  else if 120 ≤ metaDescription.length ∧ metaDescription.length ≤ 160 then 100
  else 60

/-- Content category score (part_003 lines 197-198): 70 for exactly one
H1, 50 for several, 20 for none, plus 30 when the word count reaches 300
and 10 otherwise. -/
def contentScore (h1Count wordCount : Nat) : Nat :=
  (if h1Count = 1 then 70 else if 0 < h1Count then 50 else 20) +
    (if 300 ≤ wordCount then 30 else 10)

/-- Technical category score (part_003 line 199): 80 when the viewport
meta marks the page mobile friendly, 40 otherwise. -/
def technicalScore (mobileFriendly : Bool) : Nat :=
  if mobileFriendly then 80 else 40

/-- Performance category score (part_003 line 200): 100 below 2s load
time, 70 below 4s, 40 otherwise. -/
def performanceScore (loadTimeMs : Nat) : Nat :=
  if loadTimeMs < 2000 then 100
  else if loadTimeMs < 4000 then 70
  else 40

/-- JavaScript Math.round applied to k/100 for a natural k: round half
away from zero, which for nonnegative values is floor((k+50)/100).  The
analyzer's weighted sum is embedded with weights scaled by 100 so the
arithmetic stays in the naturals; every weight-times-score product the
fallback analyzer can produce is exactly representable as an IEEE double,
so this integer model matches the JavaScript computation exactly. -/
def jsRound100 (k : Nat) : Nat :=
  (k + 50) / 100

/-- Overall score (part_003 lines 202-208): Math.round of
0.15*title + 0.15*meta + 0.25*content + 0.25*technical + 0.20*performance,
embedded with all weights scaled by 100. -/
def overallScore (t m c tech p : Nat) : Nat :=
  jsRound100 (15 * t + 15 * m + 25 * c + 25 * tech + 20 * p)

/-- Grade derivation in performBasicAnalysis (part_003 line 240):
80 and up A, 60 and up B, 40 and up C, else D. -/
def gradeOf (overall : Nat) : String :=
  if 80 ≤ overall then "A"
  else if 60 ≤ overall then "B"
  else if 40 ≤ overall then "C"
  else "D"

/-- Grade derivation in the stored-analysis view route
(part_003 line 308, router.get for one analysis id): 80 and up A, 60 and
up B, and anything lower C -- this chain has no D branch. -/
def gradeView (overall : Nat) : String :=
  if 80 ≤ overall then "A"
  else if 60 ≤ overall then "B"
  else "C"

/-- Issue severity, the `type` field of an issue object in
generateBasicIssues. -/
inductive Severity
  | critical
  | warning
  | info
  deriving DecidableEq, Repr

/-- Issue category, the `category` field of an issue object. -/
inductive SeoCategory
  | title
  | meta
  | content
  | technical
  | performance
  | social
  deriving DecidableEq, Repr

/-- An issue object as built by generateBasicIssues
(part_003 lines 244-261). -/
structure Issue where
  type : Severity
  category : SeoCategory
  message : String
  deriving DecidableEq, Repr

/-- generateBasicIssues (part_003 lines 244-261), pushing in source
order: the title chain, the meta check, the H1 chain, the thin-content
check, the mobile check, the load-time check. -/
def generateBasicIssues (title metaDesc : String) (h1Tags : List String)
    (wordCount : Nat) (mobileFriendly : Bool) (loadTimeMs : Nat) : List Issue :=
  (if title = "" then [⟨Severity.critical, SeoCategory.title, "Missing page title"⟩]
   else if title.length < 30 then [⟨Severity.warning, SeoCategory.title, "Title too short"⟩]
   else if 60 < title.length then [⟨Severity.warning, SeoCategory.title, "Title too long"⟩]
   else []) ++
  (if metaDesc = "" then [⟨Severity.critical, SeoCategory.meta, "Missing meta description"⟩]
   else []) ++
  (if h1Tags.length = 0 then [⟨Severity.critical, SeoCategory.content, "Missing H1 heading"⟩]
   else if 1 < h1Tags.length then [⟨Severity.warning, SeoCategory.content, "Multiple H1 tags"⟩]
   else []) ++
  (if wordCount < 300 then [⟨Severity.warning, SeoCategory.content, "Thin content"⟩] else []) ++
  (if mobileFriendly then [] else [⟨Severity.critical, SeoCategory.technical, "Not mobile-friendly"⟩]) ++
  (if 3000 < loadTimeMs then [⟨Severity.warning, SeoCategory.performance, "Slow load time"⟩] else [])

/-- The six category scores of an analysis result. -/
structure ScoreSet where
  title : Nat
  meta : Nat
  content : Nat
  technical : Nat
  performance : Nat
  social : Nat
  deriving DecidableEq, Repr

/-- The scoring-relevant part of the object performBasicAnalysis returns:
overall_score, the scores map (social hardcoded to 0), the issues list and
the grade string. -/
structure BasicAnalysis where
  overall_score : Nat
  scores : ScoreSet
  issues : List Issue
  grade : String
  deriving DecidableEq, Repr

/-- performBasicAnalysis (part_003 lines 148-242), scoring stage: the
category scores, the rounded weighted overall, the issues and the grade,
all computed from the extracted page facts. -/
def performBasicAnalysis (page : BasicPage) : BasicAnalysis :=
  let t := titleScore page.title
  let m := metaScore page.metaDescription
  let c := contentScore page.h1Tags.length page.wordCount
  let tech := technicalScore page.mobileFriendly
  let p := performanceScore page.loadTimeMs
  let overall := overallScore t m c tech p
  ⟨overall, ⟨t, m, c, tech, p, 0⟩,
   generateBasicIssues page.title page.metaDescription page.h1Tags page.wordCount
     page.mobileFriendly page.loadTimeMs,
   gradeOf overall⟩

/-- JavaScript href.startsWith('http') (part_003 line 181), modelled as a
character-list prefix test. -/
def hrefStartsWithHttp (href : String) : Bool :=
  "http".data.isPrefixOf href.data

/-- The link-classification loop of performBasicAnalysis
(part_003 lines 175-186): given the href attributes of all anchor elements
that have one, returns (internalLinks, externalLinks); a link counts as
external exactly when its href starts with the four characters "http",
and as internal otherwise (an empty href is falsy in the source and also
lands in the internal branch). -/
def countLinks (hrefs : List String) : Nat × Nat :=
  hrefs.foldl
    (fun acc href =>
      if hrefStartsWithHttp href then (acc.1, acc.2 + 1) else (acc.1 + 1, acc.2))
    (0, 0)

/-- Character allowed after the first position of a URI scheme. -/
def isSchemeChar (c : Char) : Bool :=
  c.isAlpha || c.isDigit || c == '+' || c == '-' || c == '.'

/-- Stated from the spec's words, for comparison with the source's
classification in claim C9: "a link is external if its href begins with an
absolute scheme".  An href begins with an absolute scheme when a nonempty
scheme (a letter followed by letters, digits, plus, minus or dot) precedes
a colon. -/
def specHasAbsoluteScheme (href : String) : Bool :=
  match href.data.takeWhile (fun c => c != ':') with
  | [] => false
  | c :: rest => c.isAlpha && rest.all isSchemeChar && href.data.contains ':'

/-- The page facts the quick-analyze API extracts (src/routes/api.js). -/
structure QuickPage where
  title : String
  metaDescription : String
  h1Count : Nat
  loadTimeMs : Nat
  deriving DecidableEq, Repr

/-- Quick score calculation of POST /api/analyze (api.js lines 42-51):
base 50, plus 15 for a well-sized title, 15 for a well-sized meta
description, 10 for exactly one H1, 10 for a sub-2s load, then
Math.min(score, 100). -/
def quickScore (p : QuickPage) : Nat :=
  min
    (50 +
      (if p.title ≠ "" ∧ 30 ≤ p.title.length ∧ p.title.length ≤ 60 then 15 else 0) +
      (if p.metaDescription ≠ "" ∧ 120 ≤ p.metaDescription.length ∧
          p.metaDescription.length ≤ 160 then 15 else 0) +
      (if p.h1Count = 1 then 10 else 0) +
      (if p.loadTimeMs < 2000 then 10 else 0))
    100

/-- A JSON response of the quick-analyze API: a 400 error payload or a 200
payload carrying the computed score. -/
inductive ApiResponse
  | badRequest (error : String)
  | ok (score : Nat)
  deriving DecidableEq, Repr

/-- POST /api/analyze (api.js lines 11-62): missing url is rejected as
"URL is required"; a failed page fetch is caught and answered with status
400 and "Could not fetch URL", with no score computed; otherwise the quick
score of the fetched page is returned. -/
def quickAnalyze (url : String) (fetched : Option QuickPage) : ApiResponse :=
  if url = "" then ApiResponse.badRequest "URL is required"
  else
    match fetched with
    | none => ApiResponse.badRequest "Could not fetch URL"
    | some page => ApiResponse.ok (quickScore page)

/-- Outcome of the analyze page route: either an analysis was computed and
inserted into seo_analyses and rendered, or the route flashed an error and
redirected with nothing persisted. -/
inductive AnalyzeOutcome
  | saved (analysis : BasicAnalysis)
  | redirectError (message : String)
  deriving DecidableEq, Repr

/-- POST /analyze (part_003 lines 19-145): missing url redirects with a
flash; when the ML service answered, its payload is saved; otherwise the
fallback analyzer runs, and if its page fetch throws, the outer catch
flashes "An error occurred during analysis: " plus the error message and
redirects -- the seo_analyses INSERT further down is never reached. -/
def analyzeRoute (url : String) (mlResult : Option BasicAnalysis)
    (fetchResult : Except String BasicPage) : AnalyzeOutcome :=
  if url = "" then AnalyzeOutcome.redirectError "Please provide a URL to analyze"
  else
    match mlResult with
    | some d => AnalyzeOutcome.saved d
    | none =>
      match fetchResult with
      | Except.error msg =>
        AnalyzeOutcome.redirectError ("An error occurred during analysis: " ++ msg)
      | Except.ok page => AnalyzeOutcome.saved (performBasicAnalysis page)

/-- Position of a category in the fixed issue order title, meta, content,
technical, performance (social produces no issues here). -/
def catRank : SeoCategory → Nat
  | SeoCategory.title => 0
  | SeoCategory.meta => 1
  | SeoCategory.content => 2
  | SeoCategory.technical => 3
  | SeoCategory.performance => 4
  | SeoCategory.social => 5

/-- Position of a severity in the order critical, warning, info. -/
def sevRank : Severity → Nat
  | Severity.critical => 0
  | Severity.warning => 1
  | Severity.info => 2

/-- Combined rank of an issue: category first, then severity (severity
ranks are below 3, so this is the lexicographic order). -/
def issueRank (i : Issue) : Nat :=
  3 * catRank i.category + sevRank i.type

/-- Helper: each category score of the fallback analyzer is at most 100. -/
theorem titleScore_le (s : String) : titleScore s ≤ 100 := by
  unfold titleScore
  split_ifs <;> omega

/-- Helper: the meta score is at most 100. -/
theorem metaScore_le (s : String) : metaScore s ≤ 100 := by
  unfold metaScore
  split_ifs <;> omega

/-- Helper: the content score is at most 100. -/
theorem contentScore_le (h w : Nat) : contentScore h w ≤ 100 := by
  unfold contentScore
  split_ifs <;> omega

/-- Helper: the technical score is at most 100. -/
theorem technicalScore_le (b : Bool) : technicalScore b ≤ 100 := by
  unfold technicalScore
  split_ifs <;> omega

/-- Helper: the performance score is at most 100. -/
theorem performanceScore_le (ms : Nat) : performanceScore ms ≤ 100 := by
  unfold performanceScore
  split_ifs <;> omega

/-- C1 (counterexample): the claim says a record in a terminal state never
changes status again, but starting from a fresh pending edit, cancelling
it (reaching the terminal state cancelled) and then calling the apply
route with a connected provider moves it to applied: the apply route's
UPDATE has no status guard. -/
theorem claim_C1_cex :
    (stepRecord createEdit EditOp.cancel).status = EditStatus.cancelled ∧
    (stepRecord (stepRecord createEdit EditOp.cancel)
        (EditOp.apply (some "wordpress") false "" 7)).status = EditStatus.applied := by
  exact ⟨rfl, rfl⟩

/-- C1 (amended): the full transition behaviour of the two routes on an
existing owned record: cancel moves pending to cancelled and leaves any
other status unchanged, while apply sets the status to applied whenever a
provider is connected -- regardless of the current status, so
cancelled-to-applied is also reachable -- and leaves it unchanged when no
provider is connected. -/
theorem claim_C1_amended (e : EditRecord) (op : EditOp) :
    (stepRecord e op).status =
      match op with
      | EditOp.apply provider _ _ _ =>
        if provider.isSome then EditStatus.applied else e.status
      | EditOp.cancel =>
        if e.status = EditStatus.pending then EditStatus.cancelled else e.status := by
  cases op with
  | apply provider pushSucceeds pushNote now =>
    cases provider <;> cases pushSucceeds <;> simp [stepRecord, applyEditRoute]
  | cancel =>
    by_cases h : e.status = EditStatus.pending <;>
      simp [stepRecord, cancelEditRoute, h]

/-- C2 (counterexample): applying an edit whose website has no connected
account does not transition the record to applied: the route returns
before any push attempt, the record stays pending with no applied_at, and
the flash is the error "No platform connected. Connect a platform first to
push changes.", which names neither a provider nor demo mode. -/
theorem claim_C2_cex :
    applyEditRoute (some createEdit) none true "" 0 =
      ⟨some createEdit, "No platform connected. Connect a platform first to push changes.",
       true, 0⟩ ∧
    createEdit.status = EditStatus.pending := by
  exact ⟨rfl, rfl⟩

/-- C2 (amended): when the website has no connected account, the apply
route makes no push attempt at all and leaves the record exactly as it
was; the user sees the error message "No platform connected. Connect a
platform first to push changes."  The simulated demo-mode applied outcome
only arises when an account is connected and the push fails. -/
theorem claim_C2_amended (e : EditRecord) (pushSucceeds : Bool) (pushNote : String) (now : Nat) :
    applyEditRoute (some e) none pushSucceeds pushNote now =
      ⟨some e, "No platform connected. Connect a platform first to push changes.", true, 0⟩ := by
  rfl

/-- C3 (counterexample): the apply-ai route is an apply operation with a
connected account whose push fails, yet the edit it created stays pending
with applied_at unset, and the message is the generic "AI suggestion
saved. Connect a platform to push to your site.", which conveys neither
the simulated nature nor the provider. -/
theorem claim_C3_cex :
    applyAiRoute (some "wordpress") false 9 =
      ⟨createEdit, "AI suggestion saved. Connect a platform to push to your site.", true, 1⟩ ∧
    createEdit.status = EditStatus.pending ∧
    createEdit.appliedAt = none := by
  exact ⟨rfl, rfl, rfl⟩

/-- C3 (amended): both routes make exactly one push attempt when a
provider is connected, but they diverge on failure: the apply route still
marks the edit applied with applied_at set and a message naming demo mode
and the provider, while the apply-ai route leaves the edit pending with a
generic saved message. -/
theorem claim_C3_amended (e : EditRecord) (p pushNote : String) (now : Nat) :
    applyEditRoute (some e) (some p) false pushNote now =
      ⟨some ⟨EditStatus.applied, some now⟩,
       "SEO change marked as applied (Demo mode - actual API integration required for "
         ++ p ++ ")",
       false, 1⟩ ∧
    applyAiRoute (some p) false now =
      ⟨createEdit, "AI suggestion saved. Connect a platform to push to your site.", true, 1⟩ := by
  exact ⟨rfl, rfl⟩

/-- C4: every category score of the fallback analyzer lies in [0,100]
(the lower bound is the natural-number embedding), and the overall score
is the half-up rounding of the weighted sum over all six categories with
weights 15, 15, 25, 25, 20 and 10 percent -- the social term contributes
nothing because the fallback analyzer pins the social score to 0. -/
theorem claim_C4_scores (page : BasicPage) :
    (performBasicAnalysis page).scores.title ≤ 100 ∧
    (performBasicAnalysis page).scores.meta ≤ 100 ∧
    (performBasicAnalysis page).scores.content ≤ 100 ∧
    (performBasicAnalysis page).scores.technical ≤ 100 ∧
    (performBasicAnalysis page).scores.performance ≤ 100 ∧
    (performBasicAnalysis page).scores.social ≤ 100 ∧
    (performBasicAnalysis page).overall_score =
      jsRound100 (15 * (performBasicAnalysis page).scores.title +
        15 * (performBasicAnalysis page).scores.meta +
        25 * (performBasicAnalysis page).scores.content +
        25 * (performBasicAnalysis page).scores.technical +
        20 * (performBasicAnalysis page).scores.performance +
        10 * (performBasicAnalysis page).scores.social) := by
  unfold performBasicAnalysis overallScore
  dsimp only
  exact ⟨titleScore_le _, metaScore_le _, contentScore_le _ _, technicalScore_le _,
    performanceScore_le _, by omega, by simp⟩

/-- C5 (code divergence): the claim says every grade derivation is the
same step function with a D tier below 40, but the stored-analysis view
route omits the D branch: for an overall score of 30 the fallback analyzer
grades D while the view route grades the same stored score C. -/
theorem claim_C5_divergence :
    gradeOf 30 = "D" ∧ gradeView 30 = "C" ∧ (gradeOf 30 == gradeView 30) = false := by
  refine ⟨rfl, rfl, ?_⟩
  decide

/-- C6 (counterexample): for a page titled "Home" with no meta description
(one H1, 500 words, mobile friendly, fast), the issue list puts the
warning short-title issue first and the critical missing-meta issue
second, so the critical missing-meta issue is not ranked before the
warning short-title issue as the claim states. -/
theorem claim_C6_cex :
    generateBasicIssues "Home" "" ["Welcome"] 500 true 1000 =
      [⟨Severity.warning, SeoCategory.title, "Title too short"⟩,
       ⟨Severity.critical, SeoCategory.meta, "Missing meta description"⟩] := by
  decide

set_option maxHeartbeats 1000000 in
/-- C6 (amended): the issue list is always ordered by category in the
fixed order title, meta, content, technical, performance, and by severity
(critical, warning, info) within a category; in the "Home"-with-no-meta
example this category-first order ranks the warning short-title issue
before the critical missing-meta issue, because category order takes
precedence over severity. -/
theorem claim_C6_amended (title metaDesc : String) (h1Tags : List String)
    (wordCount : Nat) (mobileFriendly : Bool) (loadTimeMs : Nat) :
    (generateBasicIssues title metaDesc h1Tags wordCount mobileFriendly loadTimeMs).Pairwise
      (fun a b => issueRank a ≤ issueRank b) ∧
    generateBasicIssues "Home" "" ["Welcome"] 500 true 1000 =
      [⟨Severity.warning, SeoCategory.title, "Title too short"⟩,
       ⟨Severity.critical, SeoCategory.meta, "Missing meta description"⟩] := by
  refine ⟨?_, by decide⟩
  unfold generateBasicIssues
  split_ifs <;> decide

/-- C7: the cancel route moves a pending record to cancelled and reports
success, and on any non-pending record it leaves the record unchanged and
reports "Edit not found or already processed"; in particular a second
cancel of the same freshly created edit changes nothing. -/
theorem claim_C7_cancel (e : EditRecord) :
    cancelEditRoute (some e) =
      (if e.status = EditStatus.pending then
        ⟨some ⟨EditStatus.cancelled, e.appliedAt⟩, "Edit cancelled", false, 0⟩
      else
        ⟨some e, "Edit not found or already processed", true, 0⟩) ∧
    stepRecord (stepRecord createEdit EditOp.cancel) EditOp.cancel =
      stepRecord createEdit EditOp.cancel := by
  refine ⟨?_, rfl⟩
  by_cases h : e.status = EditStatus.pending <;> simp [cancelEditRoute, h]

/-- C8 (counterexample): when the ML service is down and the fallback
fetch of the target page throws (here a timeout), the analyze page route
redirects with "An error occurred during analysis: " plus the underlying
error, which is not the message "Could not fetch URL" the claim
promises; nothing is computed or persisted (the outcome is a redirect,
not a saved analysis). -/
theorem claim_C8_cex :
    analyzeRoute "https://example.com" none (Except.error "timeout of 15000ms exceeded") =
      AnalyzeOutcome.redirectError
        "An error occurred during analysis: timeout of 15000ms exceeded" ∧
    ("An error occurred during analysis: timeout of 15000ms exceeded" ==
      "Could not fetch URL") = false := by
  refine ⟨rfl, ?_⟩
  decide

/-- C8 (amended): a fetch failure is fatal to the attempt in both places
and nothing is computed or persisted, but the wording differs: the
quick-analyze API answers 400 "Could not fetch URL", while the analyze
page route surfaces "An error occurred during analysis: " followed by the
underlying reason. -/
theorem claim_C8_amended (url msg qurl : String) :
    analyzeRoute url none (Except.error msg) =
      (if url = "" then AnalyzeOutcome.redirectError "Please provide a URL to analyze"
       else AnalyzeOutcome.redirectError ("An error occurred during analysis: " ++ msg)) ∧
    quickAnalyze qurl none =
      (if qurl = "" then ApiResponse.badRequest "URL is required"
       else ApiResponse.badRequest "Could not fetch URL") := by
  refine ⟨?_, ?_⟩
  · unfold analyzeRoute
    split_ifs <;> rfl
  · unfold quickAnalyze
    split_ifs <;> rfl

/-- C9 (counterexample): "ftp://files.example.com" begins with an absolute
scheme by the spec's wording, yet the extractor counts it as internal
(internal 1, external 0); conversely "httpx-page" begins with no absolute
scheme but is counted external, because the source tests only for the
literal character prefix "http". -/
theorem claim_C9_cex :
    specHasAbsoluteScheme "ftp://files.example.com" = true ∧
    countLinks ["ftp://files.example.com"] = (1, 0) ∧
    specHasAbsoluteScheme "httpx-page" = false ∧
    countLinks ["httpx-page"] = (0, 1) := by
  refine ⟨?_, ?_, ?_, ?_⟩ <;> decide

/-- Helper: the link-classification fold counts, over any list of hrefs
and from any starting accumulator, the hrefs without the "http" prefix
into the first component and those with it into the second. -/
theorem countLinks_fold (hrefs : List String) (a b : Nat) :
    hrefs.foldl
      (fun acc href =>
        if hrefStartsWithHttp href then (acc.1, acc.2 + 1) else (acc.1 + 1, acc.2))
      (a, b) =
      (a + (hrefs.filter (fun h => !(hrefStartsWithHttp h))).length,
       b + (hrefs.filter (fun h => hrefStartsWithHttp h)).length) := by
  induction hrefs generalizing a b with
  | nil => simp
  | cons h t ih =>
    by_cases hs : hrefStartsWithHttp h = true <;>
      simp [hs, ih] <;> omega

/-- C9 (amended): a link is counted external exactly when its href starts
with the literal four characters "http" (so https and http URLs, but also
relative hrefs that merely begin with those letters), and internal
otherwise (including absolute schemes such as ftp: or mailto:): the
counts are the lengths of the corresponding filters of the href list. -/
theorem claim_C9_amended (hrefs : List String) :
    countLinks hrefs =
      ((hrefs.filter (fun h => !(hrefStartsWithHttp h))).length,
       (hrefs.filter (fun h => hrefStartsWithHttp h)).length) := by
  unfold countLinks
  rw [countLinks_fold]
  simp

/-- C10: the quick-analyze score starts at 50, gains only the four
additive bonuses and is capped by Math.min at 100, so for every fetched
page it lies between 50 and 100 inclusive. -/
theorem claim_C10_quick_range (p : QuickPage) :
    50 ≤ quickScore p ∧ quickScore p ≤ 100 := by
  unfold quickScore
  refine ⟨le_min ?_ (by omega), min_le_right _ _⟩
  split_ifs <;> omega
